import Mathlib

/-!
Verification of the `house_prices` batch pipeline (`src/house_prices/src/main.rs`).

Shallow embedding conventions:
* Rust `HashMap`s enter `filter_and_write` only through iteration and keyed
  lookup.  A map is embedded as the association list of its entries in
  iteration order; iteration order is therefore an explicit input of every
  embedded function (the Rust order is nondeterministic per process).
* `f32`/`f64` arithmetic is embedded as exact fraction arithmetic on an
  unreduced `num`/`den` pair (`XRat`), whose mathematical value is given by
  `XRat.toRat : XRat → ℚ`.  The source performs only `-`, `*`, `/` on values
  cast from integers, so the exact rational value is the intended meaning;
  rounding is not modelled.  Number-to-text formatting is declared an external
  black box by the spec (§1), so cells render through the stand-in `renderX`.
* Panics (`Option::unwrap` on `None`, `HashMap` indexing with an absent key)
  are embedded as `Except.error` with a `RunError` value that carries exactly
  the information the panic carries: none.
* Machine-integer overflow does not matter for any claim; `i32`/`i64` values
  are embedded as `Int`.  The one width-sensitive operation in the source,
  the `n as usize` cast applied to `number_to_return`, is embedded exactly
  (`i32AsUsize`).
-/

/-- Exact stand-in for an `f32`/`f64` value: an unreduced fraction.
All float values in the source arise from integer casts combined with
`-`, `*`, `/`, so they are exact rationals. -/
structure XRat where
  num : Int
  den : Int
deriving DecidableEq, Repr

/-- Embedding of an integer cast to float (`x as f32`, `x as f64`). -/
def XRat.ofInt (n : Int) : XRat := ⟨n, 1⟩

/-- Float subtraction. -/
def XRat.sub (a b : XRat) : XRat := ⟨a.num * b.den - b.num * a.den, a.den * b.den⟩

/-- Float multiplication. -/
def XRat.mul (a b : XRat) : XRat := ⟨a.num * b.num, a.den * b.den⟩

/-- Float division.  A zero divisor yields a zero denominator (the source
performs the division unchecked; `f32` would produce `inf`/`NaN`). -/
def XRat.div (a b : XRat) : XRat := ⟨a.num * b.den, a.den * b.num⟩

/-- The rational value of an embedded float (`n/0` collapses to `0` by the
`ℚ` division convention; no claim depends on the value at a zero divisor). -/
def XRat.toRat (x : XRat) : ℚ := (x.num : ℚ) / (x.den : ℚ)

/-- `0.5f64`. -/
def XRat.half : XRat := ⟨1, 2⟩

/-- `0f32`. -/
def XRat.zero : XRat := ⟨0, 1⟩

/-- Stand-in rendering of a float into a cell (`format!("{}", v)`); the spec
(§1) treats numeric formatting as an external black box. -/
def renderX (x : XRat) : String := toString x.num ++ "/" ++ toString x.den

/-- `chrono::NaiveDate`: a calendar date. -/
structure Date where
  year : Int
  month : Int
  day : Int
deriving DecidableEq, Repr

/-- `chrono` `Ord` on `NaiveDate`: chronological, i.e. lexicographic on
(year, month, day). -/
def Date.leB (a b : Date) : Bool :=
  if a.year = b.year then
    if a.month = b.month then a.day ≤ b.day
    else a.month < b.month
  else a.year < b.year

/-- `std::cmp::Ord::min` on dates. -/
def Date.minD (a b : Date) : Date := if Date.leB a b then a else b

/-- `std::cmp::Ord::max` on dates. -/
def Date.maxD (a b : Date) : Date := if Date.leB a b then b else a

/-- Day number of a proleptic Gregorian date (days since 1970-01-01), the
count underlying `chrono`; Howard Hinnant's civil-calendar algorithm.
`Int.fdiv`/`Int.emod` match the algorithm's floor semantics. -/
def daysFromCivil (dt : Date) : Int :=
  let y : Int := if dt.month ≤ 2 then dt.year - 1 else dt.year
  let era : Int := Int.fdiv y 400
  let yoe : Int := y - era * 400
  let mp : Int := Int.emod (dt.month + 9) 12
  let doy : Int := (153 * mp + 2) / 5 + dt.day - 1
  let doe : Int := yoe * 365 + yoe / 4 - yoe / 100 + doy
  era * 146097 + doe - 719468

/-- `(a - b).num_days()` on `chrono::NaiveDate`. -/
def numDays (a b : Date) : Int := daysFromCivil a - daysFromCivil b

/-- Left zero-padding of a natural number's decimal form to `w` digits. -/
def padNat (w : Nat) (n : Nat) : String :=
  let s := toString n
  if s.length < w then String.mk (List.replicate (w - s.length) '0') ++ s else s

/-- `chrono` `%Y`: the year, zero-padded to 4 digits, with a sign for
negative years. -/
def padYear (y : Int) : String :=
  if y < 0 then "-" ++ padNat 4 (-y).toNat else padNat 4 y.toNat

/-- `chrono` `%m`-style zero-padding to two digits of a nonnegative field. -/
def pad2 (n : Int) : String := padNat 2 n.toNat

/-- `date.format("%Y-%m-01")` — the rendering used by `add_entries`,
`add_percentage_change` and `add_entries_hdi`: the day of month is replaced
by the literal `01`. -/
def formatYM01 (d : Date) : String :=
  padYear d.year ++ "-" ++ pad2 d.month ++ "-01"

/-- `date.format("%Y-%m-%d")` — the rendering used by `write_all_sale_map`. -/
def formatYMD (d : Date) : String :=
  padYear d.year ++ "-" ++ pad2 d.month ++ "-" ++ pad2 d.day

/-- `UKHPIRecord`: one regional house-price-index snapshot (a `ReferenceRecord`
in the spec's vocabulary). -/
structure UKHPIRecord where
  region : String
  time : Date
  average_price_all : Int
  average_price_flats : Int
  hpi_all : XRat
  hpi_flats : XRat
  percentage_change_monthly_all : Option XRat
  percentage_change_yearly_all : Option XRat
  percentage_change_monthly_flats : Option XRat
  percentage_change_yearly_flats : Option XRat
  volume : Option XRat
deriving DecidableEq, Repr

/-- `PPDSRecord`: one sale record (a `SaleRecord` in the spec's vocabulary). -/
structure PPDSRecord where
  date : Date
  flat_name : String
  building : String
  estate : String
  price_paid : Int
deriving DecidableEq, Repr

/-- The two Rust panics reachable from `filter_and_write`, embedded as error
values.  A Rust panic aborts the run with a fixed message (`Option::unwrap`
on `None`, or a `HashMap` index with an absent key) and carries no data, so
neither constructor carries any. -/
inductive RunError where
  | unwrapNone
  | keyNotFound
deriving DecidableEq, Repr

/-- `Option::unwrap`. -/
def unwrapO {α : Type} : Option α → Except RunError α
  | some a => Except.ok a
  | none => Except.error RunError.unwrapNone

/-- Rust's stable `sort_by`, embedded as stable insertion: `insertBy` places
`x` before the first element it does not compare `le` to. -/
def insertBy {α : Type} (le : α → α → Bool) (x : α) : List α → List α
  | [] => [x]
  | y :: ys => if le x y then x :: y :: ys else y :: insertBy le x ys

/-- Rust's stable `sort_by` (ties keep their original relative order). -/
def sortBy {α : Type} (le : α → α → Bool) : List α → List α
  | [] => []
  | x :: xs => insertBy le x (sortBy le xs)

/-- `OutputCSV`: the pivot-table builder. -/
structure OutputCSV where
  labels : List String
  rows : List (List String)
deriving DecidableEq, Repr

/-- `OutputCSV::new`. -/
def OutputCSV.new : OutputCSV := ⟨["date"], []⟩

/-- `OutputCSV::set_labels`: replaces the labels wholesale (no row fix-up). -/
def OutputCSV.set_labels (o : OutputCSV) (v : List String) : OutputCSV :=
  ⟨v, o.rows⟩

/-- `OutputCSV::add_row`: appends the given row verbatim (no length check). -/
def OutputCSV.add_row (o : OutputCSV) (row : List String) : OutputCSV :=
  ⟨o.labels, o.rows ++ [row]⟩

/-- The fresh row built by the three `add_*` column-population methods:
`vec![""; n-1]` with slot 0 set to the date cell, then the value pushed. -/
def datedRow (n : Nat) (dateCell valueCell : String) : List String :=
  (List.replicate (n - 1) "").set 0 dateCell ++ [valueCell]

/-- `OutputCSV::add_entries`: pushes the label `"{flat_name}, {building}"`,
pads every existing row with one empty cell, then appends one row per sale
with the date rendered as `%Y-%m-01` and the raw price. -/
def OutputCSV.add_entries (o : OutputCSV) (flat_name building : String)
    (ppds : List PPDSRecord) : OutputCSV :=
  let labels := o.labels ++ [flat_name ++ ", " ++ building]
  let rows := o.rows.map (fun row => row ++ [""])
  let rows := rows ++ ppds.map (fun ppd =>
    datedRow labels.length (formatYM01 ppd.date) (toString ppd.price_paid))
  ⟨labels, rows⟩

/-- `OutputCSV::add_percentage_change`: same shape as `add_entries`, with one
row per `(date, diff)` pair. -/
def OutputCSV.add_percentage_change (o : OutputCSV) (flat_name building : String)
    (percentages : List (Date × XRat)) : OutputCSV :=
  let labels := o.labels ++ [flat_name ++ ", " ++ building]
  let rows := o.rows.map (fun row => row ++ [""])
  let rows := rows ++ percentages.map (fun p =>
    datedRow labels.length (formatYM01 p.1) (renderX p.2))
  ⟨labels, rows⟩

/-- `OutputCSV::add_entries_hdi`: same shape, one row per reference record,
with the value selected by `price_to_use`. -/
def OutputCSV.add_entries_hdi (o : OutputCSV) (flat_name building : String)
    (ppds : List UKHPIRecord) (price_to_use : UKHPIRecord → Int) : OutputCSV :=
  let labels := o.labels ++ [flat_name ++ ", " ++ building]
  let rows := o.rows.map (fun row => row ++ [""])
  let rows := rows ++ ppds.map (fun ppd =>
    datedRow labels.length (formatYM01 ppd.time) (toString (price_to_use ppd)))
  ⟨labels, rows⟩


/-- The per-series `Datapoint` built inside `filter_and_write`. -/
structure Datapoint where
  score : XRat
  flat : String
  building : String
  first : Date
  last : Date
  records : List PPDSRecord
deriving DecidableEq, Repr

/-- `v_copy.sort_by(|a, b| a.date.cmp(&b.date))`: stable sort ascending by
date. -/
def sortRecords (v : List PPDSRecord) : List PPDSRecord :=
  sortBy (fun a b => Date.leB a.date b.date) v

/-- The qualifier/scorer body of the first loop of `filter_and_write`: apply
`length_filter` to the record count, sort by date, apply
`date_distance_filter` to the day span, and score the survivors with
`days * count * 0.5`.  The source unwraps `first()`/`last()`; a grouped
series is never empty (`create_ppd_mapping` only creates singleton-or-longer
vectors), and the unreachable empty case is mapped to `none`. -/
def qualify (length_filter : Nat → Bool) (date_distance_filter : Int → Bool)
    (kv : (String × String) × List PPDSRecord) : Option Datapoint :=
  if length_filter kv.2.length then none
  else
    let v := sortRecords kv.2
    match v.head?, v.getLast? with
    | some f, some l =>
      if date_distance_filter (numDays l.date f.date) then none
      else some
        { score := ((XRat.ofInt (numDays l.date f.date)).mul
            (XRat.ofInt kv.2.length)).mul XRat.half
          flat := kv.1.1
          building := kv.1.2
          first := f.date
          last := l.date
          records := v }
    | _, _ => none

/-- The first loop of `filter_and_write`: one `Datapoint` per surviving
series, in map-iteration order. -/
def selectDatapoints (length_filter : Nat → Bool) (date_distance_filter : Int → Bool)
    (ppd_map : List ((String × String) × List PPDSRecord)) : List Datapoint :=
  ppd_map.filterMap (qualify length_filter date_distance_filter)

/-- The descending-score comparison
`|a, b| b.score.total_cmp(&a.score)` (finite floats: numeric order). -/
def scoreDescB (a b : Datapoint) : Bool := decide (b.score.toRat ≤ a.score.toRat)

/-- Rust's `n as usize` for an `i32`-ranged `n`: two's-complement conversion;
negative values wrap to huge counts. -/
def i32AsUsize (n : Int) : Nat := ((n + 2 ^ 64) % 2 ^ 64).toNat

/-- The ranking step: stable sort descending by score, then
`take(n as usize)` when a limit is given. -/
def rankTruncate (number_to_return : Option Int) (dps : List Datapoint) :
    List Datapoint :=
  let sorted := sortBy scoreDescB dps
  match number_to_return with
  | some n => sorted.take (i32AsUsize n)
  | none => sorted

/-- One iteration of the second loop of `filter_and_write`: fold the
datapoint's first/last dates into the running min/max and append the series'
raw-price entries. -/
def entriesStep (st : Option Date × Option Date × OutputCSV) (dp : Datapoint) :
    Option Date × Option Date × OutputCSV :=
  (some (match st.1 with | none => dp.first | some n => Date.minD n dp.first),
   some (match st.2.1 with | none => dp.last | some n => Date.maxD n dp.last),
   st.2.2.add_entries dp.flat dp.building dp.records)

/-- The second loop of `filter_and_write`: accumulate the global min/max date
over the selection and append each selected series' raw-price entries. -/
def entriesLoop (dps : List Datapoint) : Option Date × Option Date × OutputCSV :=
  dps.foldl entriesStep (none, none, OutputCSV.new)

/-- Keyed lookup in a reference map (`ref_map[&(month, year)]` resolves the
key; the panic on an absent key is handled at the use sites). -/
def lookupRef (ref_map : List ((Int × Int) × UKHPIRecord)) (k : Int × Int) :
    Option UKHPIRecord :=
  (ref_map.find? (fun kv => kv.1 = k)).map (fun kv => kv.2)

/-- One iteration of the `records` collection loop: unwrap the min/max dates
and keep the entry's record when its `time` lies in the closed range. -/
def rangeStep (min_date max_date : Option Date) (acc : List UKHPIRecord)
    (kv : (Int × Int) × UKHPIRecord) : Except RunError (List UKHPIRecord) := do
  let mn ← unwrapO min_date
  let mx ← unwrapO max_date
  pure (if Date.leB mn kv.2.time && Date.leB kv.2.time mx
        then acc ++ [kv.2] else acc)

/-- The in-range reference-record collection of the reference loop:
`records` gathers, in iteration order, every map entry with
`min_date.unwrap() <= time && time <= max_date.unwrap()`.  The unwraps are
performed per iteration, so an empty map raises no panic even when the dates
are unset. -/
def buildRangeRecords (min_date max_date : Option Date)
    (ref_map : List ((Int × Int) × UKHPIRecord)) :
    Except RunError (List UKHPIRecord) :=
  ref_map.foldlM (rangeStep min_date max_date) []

/-- One step of the percentage-change walk.  Note the faithful embedding of
the source's state update: the `Some` branch yields `Some(prev_r)` — the
previous record is never advanced, so every subsequent sale is compared
against the *first* sale of the series. -/
def pcStep (ref_map : List ((Int × Int) × UKHPIRecord))
    (st : Option PPDSRecord × List (Date × XRat)) (r : PPDSRecord) :
    Except RunError (Option PPDSRecord × List (Date × XRat)) :=
  match st.1 with
  | none => Except.ok (some r, st.2 ++ [(r.date, XRat.zero)])
  | some prev_r =>
    let change : XRat :=
      (XRat.ofInt (r.price_paid - prev_r.price_paid)).div
        (XRat.ofInt prev_r.price_paid)
    match lookupRef ref_map (r.date.month, r.date.year),
        lookupRef ref_map (prev_r.date.month, prev_r.date.year) with
    | some new_ref, some original_ref =>
      let change_of_ref : XRat :=
        (XRat.ofInt (new_ref.average_price_flats - original_ref.average_price_flats)).div
          (XRat.ofInt original_ref.average_price_flats)
      Except.ok (some prev_r,
        st.2 ++ [(r.date, (change.sub change_of_ref).mul (XRat.ofInt 100))])
    | _, _ => Except.error RunError.keyNotFound

/-- The percentage-change series of one selected series against one reference
map: the walk over `d.records` with `previous_record` state. -/
def computePercentages (ref_map : List ((Int × Int) × UKHPIRecord))
    (records : List PPDSRecord) : Except RunError (List (Date × XRat)) :=
  (records.foldlM (pcStep ref_map) (none, [])).map (fun st => st.2)

/-- The body of the inner loop over the selected datapoints: one
percentage-change column per selected series, labelled with the region of
the first in-range record (`records.first().unwrap()`). -/
def pcColumnStep (ref_map : List ((Int × Int) × UKHPIRecord))
    (records : List UKHPIRecord) (pcOut : OutputCSV) (d : Datapoint) :
    Except RunError OutputCSV := do
  let percentages ← computePercentages ref_map d.records
  let fr ← unwrapO records.head?
  pure (pcOut.add_percentage_change d.flat
    (d.building ++ " v " ++ fr.region) percentages)

/-- One iteration of the reference loop of `filter_and_write`: collect the
in-range records, emit one percentage-change column per selected series
(labelled `"{flat}, {building} v {region}"` with the region of the first
in-range record), then the two regional price columns. -/
def refLoopStep (dps : List Datapoint) (min_date max_date : Option Date)
    (st : OutputCSV × OutputCSV) (ref_map : List ((Int × Int) × UKHPIRecord)) :
    Except RunError (OutputCSV × OutputCSV) := do
  let records ← buildRangeRecords min_date max_date ref_map
  let pcOut ← dps.foldlM (pcColumnStep ref_map records) st.2
  let fr ← unwrapO records.head?
  let out := st.1.add_entries_hdi fr.region "all sales average" records
    (fun x => x.average_price_all)
  let out := out.add_entries_hdi fr.region "flats average" records
    (fun x => x.average_price_flats)
  pure (out, pcOut)

/-- `filter_and_write`, up to the final file writes: produces the price table
and the percentage-change table, or the error embedding the first panic. -/
def filterAndWrite (length_filter : Nat → Bool) (date_distance_filter : Int → Bool)
    (number_to_return : Option Int)
    (ppd_map : List ((String × String) × List PPDSRecord))
    (reference_maps : List (List ((Int × Int) × UKHPIRecord))) :
    Except RunError (OutputCSV × OutputCSV) :=
  let dps := rankTruncate number_to_return
    (selectDatapoints length_filter date_distance_filter ppd_map)
  let st := entriesLoop dps
  reference_maps.foldlM (refLoopStep dps st.1 st.2.1) (st.2.2, OutputCSV.new)

/-- `write_all_sale_map`, up to the final file write: the six-column
`all-prices` table. -/
def writeAllSaleMapTable
    (barbican_ppd gle_ppd : List ((String × String) × List PPDSRecord))
    (col lon eng : List ((Int × Int) × UKHPIRecord)) : OutputCSV :=
  let out := OutputCSV.new.set_labels
    ["date", "barbican", "golden_lane", "city_of_london_flats",
     "london_flats", "england_flats"]
  let out := barbican_ppd.foldl
    (fun out kv => kv.2.foldl
      (fun out u => out.add_row
        [formatYMD u.date, toString u.price_paid, "", "", "", ""]) out)
    out
  let out := gle_ppd.foldl
    (fun out kv => kv.2.foldl
      (fun out u => out.add_row
        [formatYMD u.date, "", toString u.price_paid, "", "", ""]) out)
    out
  let out := (sortBy (fun a b => Date.leB a.time b.time) (col.map (fun kv => kv.2))).foldl
    (fun out v => out.add_row
      [formatYMD v.time, "", "", toString v.average_price_flats, "", ""])
    out
  let out := (sortBy (fun a b => Date.leB a.time b.time) (lon.map (fun kv => kv.2))).foldl
    (fun out v => out.add_row
      [formatYMD v.time, "", "", "", toString v.average_price_flats, ""])
    out
  let out := (sortBy (fun a b => Date.leB a.time b.time) (eng.map (fun kv => kv.2))).foldl
    (fun out v => out.add_row
      [formatYMD v.time, "", "", "", "", toString v.average_price_flats])
    out
  out

/-- Decidable equality for `Except`, used to evaluate concrete runs. -/
instance {ε α : Type} [DecidableEq ε] [DecidableEq α] : DecidableEq (Except ε α) :=
  fun a b =>
    match a, b with
    | Except.error e, Except.error f =>
      if h : e = f then isTrue (by rw [h]) else
        isFalse (fun hh => h (Except.noConfusion hh id))
    | Except.error _, Except.ok _ => isFalse (fun hh => Except.noConfusion hh)
    | Except.ok _, Except.error _ => isFalse (fun hh => Except.noConfusion hh)
    | Except.ok x, Except.ok y =>
      if h : x = y then isTrue (by rw [h]) else
        isFalse (fun hh => h (Except.noConfusion hh id))

/-- The spec's PivotTable invariant: every row has one cell per label. -/
def Rectangular (o : OutputCSV) : Prop :=
  ∀ row ∈ o.rows, row.length = o.labels.length

/-- The spec's §4.6 walk step, stated from the spec's own words for
comparison with the source-derived `pcStep`: identical arithmetic, but after
a pair `(prev, curr)` is handled the previous record advances to `curr`, so
each subsequent entry is the consecutive-pair diff. -/
def specPcStep (ref_map : List ((Int × Int) × UKHPIRecord))
    (st : Option PPDSRecord × List (Date × XRat)) (r : PPDSRecord) :
    Except RunError (Option PPDSRecord × List (Date × XRat)) :=
  match st.1 with
  | none => Except.ok (some r, st.2 ++ [(r.date, XRat.zero)])
  | some prev_r =>
    let change : XRat :=
      (XRat.ofInt (r.price_paid - prev_r.price_paid)).div
        (XRat.ofInt prev_r.price_paid)
    match lookupRef ref_map (r.date.month, r.date.year),
        lookupRef ref_map (prev_r.date.month, prev_r.date.year) with
    | some new_ref, some original_ref =>
      let change_of_ref : XRat :=
        (XRat.ofInt (new_ref.average_price_flats - original_ref.average_price_flats)).div
          (XRat.ofInt original_ref.average_price_flats)
      Except.ok (some r,
        st.2 ++ [(r.date, (change.sub change_of_ref).mul (XRat.ofInt 100))])
    | _, _ => Except.error RunError.keyNotFound

/-- The spec's §4.6 consecutive-pair percentage-change series (comparison
definition; the source-derived one is `computePercentages`). -/
def specComputePercentages (ref_map : List ((Int × Int) × UKHPIRecord))
    (records : List PPDSRecord) : Except RunError (List (Date × XRat)) :=
  (records.foldlM (specPcStep ref_map) (none, [])).map (fun st => st.2)

/-! ### Concrete inputs for the claim evaluations -/

/-- A reference-map entry: key `(month, year)` with a snapshot record (the
unused index fields are zeroed). -/
def refEntry (mo yr : Int) (t : Date) (region : String) (allP flats : Int) :
    (Int × Int) × UKHPIRecord :=
  ((mo, yr), ⟨region, t, allP, flats, ⟨0, 1⟩, ⟨0, 1⟩, none, none, none, none, none⟩)

/-- A sale record at a date and price. -/
def saleAt (d : Date) (fl bl : String) (p : Int) : PPDSRecord :=
  ⟨d, fl, bl, "estate", p⟩

/-- A length filter that rejects nothing. -/
def noLenFilter : Nat → Bool := fun _ => false

/-- A date-distance filter that rejects nothing. -/
def noDistFilter : Int → Bool := fun _ => false

/-- The `main` length filter `|x| x < 3`. -/
def mainLenFilter : Nat → Bool := fun n => decide (n < 3)

/-- The `main` date-distance filter `|x| x < 7300`. -/
def mainDistFilter : Int → Bool := fun d => decide (d < 7300)

def c1records : List PPDSRecord :=
  [saleAt ⟨2000, 1, 15⟩ "flat1" "bldg" 100,
   saleAt ⟨2005, 6, 10⟩ "flat1" "bldg" 200,
   saleAt ⟨2010, 9, 5⟩ "flat1" "bldg" 400]

def c1refMap : List ((Int × Int) × UKHPIRecord) :=
  [refEntry 1 2000 ⟨2000, 1, 1⟩ "R" 1100 1000,
   refEntry 6 2005 ⟨2005, 6, 1⟩ "R" 1100 1000,
   refEntry 9 2010 ⟨2010, 9, 1⟩ "R" 1100 1000]

def c2ppd : List ((String × String) × List PPDSRecord) :=
  [(("flat1", "bldg1"),
    [saleAt ⟨2000, 1, 15⟩ "flat1" "bldg1" 100,
     saleAt ⟨2000, 3, 10⟩ "flat1" "bldg1" 150])]

/-- Reference map whose `(1, 2000)` record is dated 2000-01-01, before the
selection's min date 2000-01-15, with `average_price_flats = 500`. -/
def c2refsA : List (List ((Int × Int) × UKHPIRecord)) :=
  [[refEntry 1 2000 ⟨2000, 1, 1⟩ "R" 600 500,
    refEntry 3 2000 ⟨2000, 3, 1⟩ "R" 1100 1000]]

/-- Identical to `c2refsA` except the out-of-range record's
`average_price_flats` is 250. -/
def c2refsB : List (List ((Int × Int) × UKHPIRecord)) :=
  [[refEntry 1 2000 ⟨2000, 1, 1⟩ "R" 600 250,
    refEntry 3 2000 ⟨2000, 3, 1⟩ "R" 1100 1000]]

def c3records : List PPDSRecord :=
  [saleAt ⟨2000, 1, 15⟩ "flat1" "bldg1" 100,
   saleAt ⟨2001, 2, 20⟩ "flat1" "bldg1" 150]

def c3recordsB : List PPDSRecord :=
  [saleAt ⟨1995, 7, 2⟩ "other" "house" 300,
   saleAt ⟨1999, 8, 9⟩ "other" "house" 900]

def c4ppd : List ((String × String) × List PPDSRecord) :=
  [(("flat1", "bldg1"),
    [saleAt ⟨2000, 1, 1⟩ "flat1" "bldg1" 100,
     saleAt ⟨2000, 3, 10⟩ "flat1" "bldg1" 150])]

def c4entry1 : (Int × Int) × UKHPIRecord := refEntry 1 2000 ⟨2000, 1, 1⟩ "R" 900 1000

def c4entry2 : (Int × Int) × UKHPIRecord := refEntry 3 2000 ⟨2000, 3, 1⟩ "R" 910 1010

def c5dp : Datapoint := ⟨⟨10, 2⟩, "f", "b", ⟨2000, 1, 1⟩, ⟨2001, 1, 1⟩, []⟩

def c5ppd : List ((String × String) × List PPDSRecord) :=
  [(("f", "b"),
    [saleAt ⟨2000, 1, 1⟩ "f" "b" 100, saleAt ⟨2001, 6, 1⟩ "f" "b" 200])]

/-- The spec's scenario series: only two sales, rejected by `|x| x < 3`. -/
def c6v : List PPDSRecord :=
  [saleAt ⟨2000, 1, 1⟩ "f" "b" 100, saleAt ⟨2005, 1, 1⟩ "f" "b" 150]

def c6rest : List ((String × String) × List PPDSRecord) :=
  [(("g", "c"),
    [saleAt ⟨1990, 1, 1⟩ "g" "c" 100, saleAt ⟨1991, 1, 1⟩ "g" "c" 110,
     saleAt ⟨2015, 1, 1⟩ "g" "c" 200])]

def c6refs : List (List ((Int × Int) × UKHPIRecord)) :=
  [[refEntry 1 1990 ⟨1990, 1, 1⟩ "R" 500 500,
    refEntry 1 1991 ⟨1991, 1, 1⟩ "R" 510 510,
    refEntry 1 2015 ⟨2015, 1, 1⟩ "R" 900 900]]

def c7ppd : List ((String × String) × List PPDSRecord) :=
  [(("f", "b"),
    [saleAt ⟨2000, 1, 1⟩ "f" "b" 100, saleAt ⟨2000, 3, 10⟩ "f" "b" 150])]

def c7refs : List (List ((Int × Int) × UKHPIRecord)) :=
  [[refEntry 1 2000 ⟨2000, 1, 1⟩ "R" 900 1000,
    refEntry 3 2000 ⟨2000, 3, 1⟩ "R" 910 1010]]

/-- Two sales whose previous (first) sale price is zero. -/
def c8records : List PPDSRecord :=
  [saleAt ⟨2000, 1, 15⟩ "flat1" "bldg1" 0,
   saleAt ⟨2000, 3, 10⟩ "flat1" "bldg1" 150]

def c8map : List ((Int × Int) × UKHPIRecord) :=
  [refEntry 1 2000 ⟨2000, 1, 1⟩ "R" 1100 1000,
   refEntry 3 2000 ⟨2000, 3, 1⟩ "R" 1110 1010]

/-- One series of two sales: rejected by the `main` length filter, leaving
the selection empty. -/
def c9ppd : List ((String × String) × List PPDSRecord) :=
  [(("f", "b"),
    [saleAt ⟨2000, 1, 1⟩ "f" "b" 100, saleAt ⟨2021, 1, 1⟩ "f" "b" 150])]

def c9refs : List (List ((Int × Int) × UKHPIRecord)) :=
  [[refEntry 1 2000 ⟨2000, 1, 1⟩ "R" 900 1000]]

def c10saleA : PPDSRecord := saleAt ⟨2000, 1, 5⟩ "f" "b" 100

def c10saleB : PPDSRecord := saleAt ⟨2000, 1, 28⟩ "f" "b" 100

/-! ### Generic helper lemmas -/

theorem insertBy_perm {α : Type} (le : α → α → Bool) (x : α) (l : List α) :
    List.Perm (insertBy le x l) (x :: l) := by
  induction l with
  | nil => simp [insertBy]
  | cons y ys ih =>
    by_cases h : le x y = true
    · simp [insertBy, h]
    · simp only [insertBy, h, Bool.false_eq_true, if_false]
      exact (ih.cons y).trans (List.Perm.swap x y ys)

theorem sortBy_perm {α : Type} (le : α → α → Bool) (l : List α) :
    List.Perm (sortBy le l) l := by
  induction l with
  | nil => simp [sortBy]
  | cons x xs ih => exact (insertBy_perm le x (sortBy le xs)).trans (ih.cons x)

theorem mem_insertBy {α : Type} {le : α → α → Bool} {x z : α} {l : List α} :
    z ∈ insertBy le x l ↔ z = x ∨ z ∈ l := by
  rw [(insertBy_perm le x l).mem_iff]; simp

theorem mem_sortBy {α : Type} {le : α → α → Bool} {z : α} {l : List α} :
    z ∈ sortBy le l ↔ z ∈ l := (sortBy_perm le l).mem_iff

theorem pairwise_insertBy {α : Type} {le : α → α → Bool}
    (htot : ∀ a b, le a b = true ∨ le b a = true)
    (htrans : ∀ a b c, le a b = true → le b c = true → le a c = true)
    (x : α) {l : List α} (hl : List.Pairwise (fun a b => le a b = true) l) :
    List.Pairwise (fun a b => le a b = true) (insertBy le x l) := by
  induction l with
  | nil => simp [insertBy]
  | cons y ys ih =>
    rcases hl with - | ⟨hy, hys⟩
    by_cases h : le x y = true
    · simp only [insertBy, h, if_true]
      refine List.Pairwise.cons ?_ (List.Pairwise.cons hy hys)
      intro z hz
      rcases List.mem_cons.mp hz with hzy | hz
      · subst hzy; exact h
      · exact htrans x y z h (hy z hz)
    · simp only [insertBy, h, Bool.false_eq_true, if_false]
      refine List.Pairwise.cons ?_ (ih hys)
      intro z hz
      rcases mem_insertBy.mp hz with hzx | hz
      · rw [hzx]
        rcases htot x y with hxy | hyx
        · exact absurd hxy h
        · exact hyx
      · exact hy z hz

theorem pairwise_sortBy {α : Type} (le : α → α → Bool)
    (htot : ∀ a b, le a b = true ∨ le b a = true)
    (htrans : ∀ a b c, le a b = true → le b c = true → le a c = true)
    (l : List α) : List.Pairwise (fun a b => le a b = true) (sortBy le l) := by
  induction l with
  | nil => simp [sortBy]
  | cons x xs ih => exact pairwise_insertBy htot htrans x ih

theorem foldl_preserves {σ α : Type} (P : σ → Prop) (f : σ → α → σ)
    (hf : ∀ s a, P s → P (f s a)) :
    ∀ (l : List α) (s : σ), P s → P (l.foldl f s) := by
  intro l
  induction l with
  | nil => intro s hs; simpa using hs
  | cons a l ih => intro s hs; rw [List.foldl_cons]; exact ih (f s a) (hf s a hs)

theorem foldlM_ok_preserves {σ α : Type} (P : σ → Prop)
    (f : σ → α → Except RunError σ)
    (hf : ∀ s a s', P s → f s a = Except.ok s' → P s') :
    ∀ (l : List α) (s s' : σ), P s → l.foldlM f s = Except.ok s' → P s' := by
  intro l
  induction l with
  | nil =>
    intro s s' hs hrun
    simp only [List.foldlM_nil] at hrun
    cases hrun; exact hs
  | cons a l ih =>
    intro s s' hs hrun
    rw [List.foldlM_cons] at hrun
    cases h1 : f s a with
    | error e => rw [h1] at hrun; cases hrun
    | ok s1 =>
      rw [h1] at hrun
      exact ih s1 s' (hf s a s1 hs h1) hrun

theorem ok_bind {α β : Type} (a : α) (f : α → Except RunError β) :
    (Except.ok a >>= f) = f a := rfl

theorem err_bind {α β : Type} (e : RunError) (f : α → Except RunError β) :
    ((Except.error e : Except RunError α) >>= f) = Except.error e := rfl

/-! ### Facts about the in-range reference-record collection -/

theorem rangeStep_some (mn mx : Date) (acc : List UKHPIRecord)
    (kv : (Int × Int) × UKHPIRecord) :
    rangeStep (some mn) (some mx) acc kv =
      Except.ok (if Date.leB mn kv.2.time && Date.leB kv.2.time mx
                 then acc ++ [kv.2] else acc) := rfl

theorem rangeFold_some (mn mx : Date) :
    ∀ (l : List ((Int × Int) × UKHPIRecord)) (acc : List UKHPIRecord),
      l.foldlM (rangeStep (some mn) (some mx)) acc =
        Except.ok (acc ++ (l.map (fun kv => kv.2)).filter
          (fun u => Date.leB mn u.time && Date.leB u.time mx)) := by
  intro l
  induction l with
  | nil =>
    intro acc
    rw [List.foldlM_nil]
    show Except.ok acc = _
    simp
  | cons kv l ih =>
    intro acc
    rw [List.foldlM_cons, rangeStep_some, ok_bind]
    by_cases h : (Date.leB mn kv.2.time && Date.leB kv.2.time mx) = true
    · rw [if_pos h, ih]
      simp [h, List.filter_cons]
    · rw [if_neg h, ih]
      simp only [List.map_cons, List.filter_cons]
      rw [if_neg h]

/-! ### Facts about the percentage-change walk -/

theorem pcStep_none (m : List ((Int × Int) × UKHPIRecord))
    (acc : List (Date × XRat)) (r : PPDSRecord) :
    pcStep m (none, acc) r = Except.ok (some r, acc ++ [(r.date, XRat.zero)]) := rfl

theorem pcStep_some_isSome (m : List ((Int × Int) × UKHPIRecord))
    (prev r : PPDSRecord) (acc : List (Date × XRat))
    (h1 : (lookupRef m (r.date.month, r.date.year)).isSome = true)
    (h2 : (lookupRef m (prev.date.month, prev.date.year)).isSome = true) :
    ∃ v, pcStep m (some prev, acc) r = Except.ok (some prev, acc ++ [(r.date, v)]) := by
  obtain ⟨nr, hnr⟩ := Option.isSome_iff_exists.mp h1
  obtain ⟨og, hog⟩ := Option.isSome_iff_exists.mp h2
  exact ⟨(((XRat.ofInt (r.price_paid - prev.price_paid)).div
      (XRat.ofInt prev.price_paid)).sub
      ((XRat.ofInt (nr.average_price_flats - og.average_price_flats)).div
        (XRat.ofInt og.average_price_flats))).mul (XRat.ofInt 100),
    by simp [pcStep, hnr, hog]⟩

theorem pcStep_err_curr (m : List ((Int × Int) × UKHPIRecord))
    (prev r : PPDSRecord) (acc : List (Date × XRat))
    (h : lookupRef m (r.date.month, r.date.year) = none) :
    pcStep m (some prev, acc) r = Except.error RunError.keyNotFound := by
  cases hp : lookupRef m (prev.date.month, prev.date.year) with
  | none => simp [pcStep, h, hp]
  | some og => simp [pcStep, h, hp]

theorem pcStep_err_prev (m : List ((Int × Int) × UKHPIRecord))
    (prev r : PPDSRecord) (acc : List (Date × XRat))
    (h : lookupRef m (prev.date.month, prev.date.year) = none) :
    pcStep m (some prev, acc) r = Except.error RunError.keyNotFound := by
  cases hr : lookupRef m (r.date.month, r.date.year) with
  | none => simp [pcStep, hr, h]
  | some nr => simp [pcStep, hr, h]

theorem pcFold_ok (m : List ((Int × Int) × UKHPIRecord)) :
    ∀ (rest : List PPDSRecord) (prev : PPDSRecord) (acc : List (Date × XRat)),
      (lookupRef m (prev.date.month, prev.date.year)).isSome = true →
      (∀ r ∈ rest, (lookupRef m (r.date.month, r.date.year)).isSome = true) →
      ∃ ps, rest.foldlM (pcStep m) (some prev, acc) = Except.ok (some prev, acc ++ ps)
        ∧ ps.length = rest.length := by
  intro rest
  induction rest with
  | nil =>
    intro prev acc h1 h2
    exact ⟨[], by rw [List.foldlM_nil]; show Except.ok (some prev, acc) = _; simp, rfl⟩
  | cons r rest ih =>
    intro prev acc hprev hall
    obtain ⟨v, hv⟩ := pcStep_some_isSome m prev r acc (hall r (by simp)) hprev
    obtain ⟨ps, hps, hlen⟩ := ih prev (acc ++ [(r.date, v)]) hprev
      (fun x hx => hall x (by simp [hx]))
    refine ⟨(r.date, v) :: ps, ?_, by simp [hlen]⟩
    rw [List.foldlM_cons, hv, ok_bind, hps]
    simp

theorem computePercentages_ok (m : List ((Int × Int) × UKHPIRecord))
    (records : List PPDSRecord)
    (hall : ∀ r ∈ records, (lookupRef m (r.date.month, r.date.year)).isSome = true) :
    ∃ l, computePercentages m records = Except.ok l ∧ l.length = records.length := by
  cases records with
  | nil => exact ⟨[], rfl, rfl⟩
  | cons r rest =>
    obtain ⟨ps, hps, hlen⟩ := pcFold_ok m rest r [(r.date, XRat.zero)]
      (hall r (by simp)) (fun x hx => hall x (by simp [hx]))
    refine ⟨(r.date, XRat.zero) :: ps, ?_, by simp [hlen]⟩
    unfold computePercentages
    rw [List.foldlM_cons, pcStep_none, ok_bind]
    rw [show ([] : List (Date × XRat)) ++ [(r.date, XRat.zero)] = [(r.date, XRat.zero)] from rfl]
    rw [hps]
    rfl

theorem pcFold_err (m : List ((Int × Int) × UKHPIRecord)) :
    ∀ (rest : List PPDSRecord) (prev : PPDSRecord) (acc : List (Date × XRat)),
      ((lookupRef m (prev.date.month, prev.date.year) = none ∧ rest ≠ []) ∨
        (∃ r ∈ rest, lookupRef m (r.date.month, r.date.year) = none)) →
      rest.foldlM (pcStep m) (some prev, acc) = Except.error RunError.keyNotFound := by
  intro rest
  induction rest with
  | nil =>
    intro prev acc h
    rcases h with ⟨-, hne⟩ | ⟨r, hr, -⟩
    · exact absurd rfl hne
    · exact absurd hr (List.not_mem_nil r)
  | cons r rest ih =>
    intro prev acc h
    by_cases hprev : lookupRef m (prev.date.month, prev.date.year) = none
    · rw [List.foldlM_cons, pcStep_err_prev m prev r acc hprev, err_bind]
    · rcases h with ⟨hp, -⟩ | ⟨x, hx, hnone⟩
      · exact absurd hp hprev
      · rcases List.mem_cons.mp hx with hxr | hxrest
        · rw [List.foldlM_cons, pcStep_err_curr m prev r acc (hxr ▸ hnone), err_bind]
        · by_cases hr0 : lookupRef m (r.date.month, r.date.year) = none
          · rw [List.foldlM_cons, pcStep_err_curr m prev r acc hr0, err_bind]
          · have h1 : (lookupRef m (r.date.month, r.date.year)).isSome = true :=
              Option.isSome_iff_ne_none.mpr hr0
            have h2 : (lookupRef m (prev.date.month, prev.date.year)).isSome = true :=
              Option.isSome_iff_ne_none.mpr hprev
            obtain ⟨v, hv⟩ := pcStep_some_isSome m prev r acc h1 h2
            rw [List.foldlM_cons, hv, ok_bind]
            exact ih prev _ (Or.inr ⟨x, hxrest, hnone⟩)

theorem computePercentages_err (m : List ((Int × Int) × UKHPIRecord))
    (records : List PPDSRecord) (hlen : 2 ≤ records.length)
    (hmiss : ∃ r ∈ records, lookupRef m (r.date.month, r.date.year) = none) :
    computePercentages m records = Except.error RunError.keyNotFound := by
  cases records with
  | nil => simp at hlen
  | cons r rest =>
    have hrest : rest ≠ [] := by
      intro h; rw [h] at hlen; simp at hlen
    unfold computePercentages
    rw [List.foldlM_cons, pcStep_none, ok_bind]
    rcases hmiss with ⟨x, hx, hnone⟩
    rcases List.mem_cons.mp hx with hxr | hxrest
    · rw [pcFold_err m rest r _ (Or.inl ⟨hxr ▸ hnone, hrest⟩)]; rfl
    · rw [pcFold_err m rest r _ (Or.inr ⟨x, hxrest, hnone⟩)]; rfl

/-! ### Rectangularity -/

theorem datedRow_length (n : Nat) (h : 1 ≤ n) (d v : String) :
    (datedRow n d v).length = n := by
  simp [datedRow]
  omega

theorem rect_new : Rectangular OutputCSV.new := by
  intro row h
  simp [OutputCSV.new] at h

theorem rect_extend (o : OutputCSV) (lbl : String) (newRows : List (List String))
    (hnew : ∀ r ∈ newRows, r.length = o.labels.length + 1)
    (ho : Rectangular o) :
    Rectangular ⟨o.labels ++ [lbl], o.rows.map (fun row => row ++ [""]) ++ newRows⟩ := by
  intro row hrow
  simp only [List.length_append, List.length_singleton]
  rcases List.mem_append.mp hrow with hold | hnewm
  · obtain ⟨r0, hr0, rfl⟩ := List.mem_map.mp hold
    simp [ho r0 hr0]
  · exact hnew row hnewm

theorem rect_add_entries (o : OutputCSV) (f b : String) (ppds : List PPDSRecord)
    (ho : Rectangular o) : Rectangular (o.add_entries f b ppds) := by
  refine rect_extend o (f ++ ", " ++ b) _ ?_ ho
  intro r hr
  obtain ⟨p, hp, rfl⟩ := List.mem_map.mp hr
  rw [datedRow_length]
  · simp
  · simp

theorem rect_add_percentage_change (o : OutputCSV) (f b : String)
    (ps : List (Date × XRat)) (ho : Rectangular o) :
    Rectangular (o.add_percentage_change f b ps) := by
  refine rect_extend o (f ++ ", " ++ b) _ ?_ ho
  intro r hr
  obtain ⟨p, hp, rfl⟩ := List.mem_map.mp hr
  rw [datedRow_length]
  · simp
  · simp

theorem rect_add_entries_hdi (o : OutputCSV) (f b : String)
    (rs : List UKHPIRecord) (ptu : UKHPIRecord → Int) (ho : Rectangular o) :
    Rectangular (o.add_entries_hdi f b rs ptu) := by
  refine rect_extend o (f ++ ", " ++ b) _ ?_ ho
  intro r hr
  obtain ⟨p, hp, rfl⟩ := List.mem_map.mp hr
  rw [datedRow_length]
  · simp
  · simp

theorem rect_entriesLoop (dps : List Datapoint) :
    Rectangular (entriesLoop dps).2.2 := by
  unfold entriesLoop
  exact foldl_preserves
    (fun (st : Option Date × Option Date × OutputCSV) => Rectangular st.2.2)
    entriesStep
    (fun st dp hst => rect_add_entries st.2.2 dp.flat dp.building dp.records hst)
    dps (none, none, OutputCSV.new) rect_new

theorem rect_pcColumnStep (m : List ((Int × Int) × UKHPIRecord))
    (records : List UKHPIRecord) (pcOut pcOut' : OutputCSV) (d : Datapoint)
    (hrect : Rectangular pcOut)
    (h : pcColumnStep m records pcOut d = Except.ok pcOut') :
    Rectangular pcOut' := by
  unfold pcColumnStep at h
  cases hc : computePercentages m d.records with
  | error e => rw [hc, err_bind] at h; cases h
  | ok ps =>
    rw [hc, ok_bind] at h
    cases hu : unwrapO records.head? with
    | error e => rw [hu, err_bind] at h; cases h
    | ok fr =>
      rw [hu, ok_bind] at h
      cases h
      exact rect_add_percentage_change pcOut d.flat _ ps hrect

theorem rect_refLoopStep (dps : List Datapoint) (mn mx : Option Date)
    (st st' : OutputCSV × OutputCSV)
    (hst : Rectangular st.1 ∧ Rectangular st.2)
    (m : List ((Int × Int) × UKHPIRecord))
    (h : refLoopStep dps mn mx st m = Except.ok st') :
    Rectangular st'.1 ∧ Rectangular st'.2 := by
  unfold refLoopStep at h
  cases hb : buildRangeRecords mn mx m with
  | error e => rw [hb, err_bind] at h; cases h
  | ok records =>
    rw [hb, ok_bind] at h
    cases hf : dps.foldlM (pcColumnStep m records) st.2 with
    | error e => rw [hf, err_bind] at h; cases h
    | ok pcOut =>
      rw [hf, ok_bind] at h
      cases hu : unwrapO records.head? with
      | error e => rw [hu, err_bind] at h; cases h
      | ok fr =>
        rw [hu, ok_bind] at h
        cases h
        refine ⟨?_, ?_⟩
        · exact rect_add_entries_hdi _ fr.region "flats average" records _
            (rect_add_entries_hdi st.1 fr.region "all sales average" records _ hst.1)
        · exact foldlM_ok_preserves Rectangular (pcColumnStep m records)
            (fun s a s' hs hss => rect_pcColumnStep m records s s' a hs hss)
            dps st.2 pcOut hst.2 hf

theorem rect_filterAndWrite (lf : Nat → Bool) (df : Int → Bool)
    (nto : Option Int) (ppd : List ((String × String) × List PPDSRecord))
    (refs : List (List ((Int × Int) × UKHPIRecord)))
    (t1 t2 : OutputCSV)
    (h : filterAndWrite lf df nto ppd refs = Except.ok (t1, t2)) :
    Rectangular t1 ∧ Rectangular t2 := by
  unfold filterAndWrite at h
  have hinit : Rectangular (entriesLoop (rankTruncate nto (selectDatapoints lf df ppd))).2.2 ∧
      Rectangular OutputCSV.new := ⟨rect_entriesLoop _, rect_new⟩
  have := foldlM_ok_preserves
    (fun (st : OutputCSV × OutputCSV) => Rectangular st.1 ∧ Rectangular st.2)
    (refLoopStep (rankTruncate nto (selectDatapoints lf df ppd))
      (entriesLoop (rankTruncate nto (selectDatapoints lf df ppd))).1
      (entriesLoop (rankTruncate nto (selectDatapoints lf df ppd))).2.1)
    (fun s a s' hs hss => rect_refLoopStep _ _ _ s s' hs a hss)
    refs _ (t1, t2) hinit h
  exact this

/-! ### Facts about selection, ranking and the empty selection -/

theorem rankTruncate_nil (nto : Option Int) : rankTruncate nto [] = [] := by
  cases nto <;> simp [rankTruncate, sortBy]

theorem buildRangeRecords_none (mx : Option Date)
    (kv : (Int × Int) × UKHPIRecord) (l : List ((Int × Int) × UKHPIRecord)) :
    buildRangeRecords none mx (kv :: l) = Except.error RunError.unwrapNone := by
  unfold buildRangeRecords
  rw [List.foldlM_cons]
  rw [show rangeStep none mx [] kv = Except.error RunError.unwrapNone from rfl, err_bind]

theorem refLoopStep_noMin (dps : List Datapoint) (mx : Option Date)
    (st : OutputCSV × OutputCSV) (kv : (Int × Int) × UKHPIRecord)
    (l : List ((Int × Int) × UKHPIRecord)) :
    refLoopStep dps none mx st (kv :: l) = Except.error RunError.unwrapNone := by
  unfold refLoopStep
  rw [buildRangeRecords_none, err_bind]

theorem filterAndWrite_emptySel (lf : Nat → Bool) (df : Int → Bool)
    (nto : Option Int) (ppd : List ((String × String) × List PPDSRecord))
    (kv : (Int × Int) × UKHPIRecord) (m : List ((Int × Int) × UKHPIRecord))
    (rest refs : List (List ((Int × Int) × UKHPIRecord)))
    (hsel : selectDatapoints lf df ppd = [])
    (hrefs : refs = (kv :: m) :: rest) :
    filterAndWrite lf df nto ppd refs = Except.error RunError.unwrapNone := by
  unfold filterAndWrite
  rw [hsel, rankTruncate_nil, hrefs, List.foldlM_cons]
  rw [show entriesLoop [] = (none, none, OutputCSV.new) from rfl]
  rw [refLoopStep_noMin, err_bind]

theorem filterAndWrite_congr_sel (lf : Nat → Bool) (df : Int → Bool)
    (nto : Option Int) (refs : List (List ((Int × Int) × UKHPIRecord)))
    (p1 p2 : List ((String × String) × List PPDSRecord))
    (h : selectDatapoints lf df p1 = selectDatapoints lf df p2) :
    filterAndWrite lf df nto p1 refs = filterAndWrite lf df nto p2 refs := by
  unfold filterAndWrite
  rw [h]

theorem qualify_none_of_reject (lf : Nat → Bool) (df : Int → Bool)
    (k : String × String) (v : List PPDSRecord) (f l : PPDSRecord)
    (hf : (sortRecords v).head? = some f) (hl : (sortRecords v).getLast? = some l)
    (hrej : lf v.length = true ∨ df (numDays l.date f.date) = true) :
    qualify lf df (k, v) = none := by
  unfold qualify
  by_cases h1 : lf v.length = true
  · simp [h1]
  · rcases hrej with h | h
    · exact absurd h h1
    · simp [h1, hf, hl, h]

theorem selectDatapoints_middle_none (lf : Nat → Bool) (df : Int → Bool)
    (l1 l2 : List ((String × String) × List PPDSRecord))
    (kv : (String × String) × List PPDSRecord)
    (h : qualify lf df kv = none) :
    selectDatapoints lf df (l1 ++ kv :: l2) = selectDatapoints lf df (l1 ++ l2) := by
  unfold selectDatapoints
  rw [List.filterMap_append, List.filterMap_append, List.filterMap_cons, h]

/-- The score stored by `qualify`, evaluated as a rational. -/
theorem score_toRat (D L : Int) :
    (((XRat.ofInt D).mul (XRat.ofInt L)).mul XRat.half).toRat
      = (D : ℚ) * (L : ℚ) * (1 / 2) := by
  simp [XRat.ofInt, XRat.mul, XRat.half, XRat.toRat]
  ring

theorem qualify_some_inv (lf : Nat → Bool) (df : Int → Bool)
    (kv : (String × String) × List PPDSRecord) (dp : Datapoint)
    (h : qualify lf df kv = some dp) :
    dp.records = sortRecords kv.2 ∧
    dp.score.toRat = (numDays dp.last dp.first : ℚ) * (dp.records.length : ℚ) * (1 / 2) := by
  unfold qualify at h
  by_cases h1 : lf kv.2.length = true
  · simp [h1] at h
  · simp only [h1, Bool.false_eq_true, if_false] at h
    cases hf : (sortRecords kv.2).head? with
    | none => rw [hf] at h; cases hl : (sortRecords kv.2).getLast? <;> rw [hl] at h <;> cases h
    | some f =>
      rw [hf] at h
      cases hl : (sortRecords kv.2).getLast? with
      | none => rw [hl] at h; cases h
      | some l =>
        rw [hl] at h
        by_cases h2 : df (numDays l.date f.date) = true
        · simp [h2] at h
        · simp only [h2, Bool.false_eq_true, if_false, Option.some.injEq] at h
          have hlen : (sortRecords kv.2).length = kv.2.length := by
            unfold sortRecords
            exact (sortBy_perm _ kv.2).length_eq
          subst h
          refine ⟨rfl, ?_⟩
          simp only
          rw [score_toRat, hlen]
          norm_cast

theorem mem_rankTruncate (nto : Option Int) (dps : List Datapoint)
    (dp : Datapoint) (h : dp ∈ rankTruncate nto dps) : dp ∈ dps := by
  unfold rankTruncate at h
  cases nto with
  | none => exact mem_sortBy.mp h
  | some n => exact mem_sortBy.mp (List.take_subset _ _ h)

theorem selected_score_formula (lf : Nat → Bool) (df : Int → Bool)
    (nto : Option Int) (ppd : List ((String × String) × List PPDSRecord))
    (dp : Datapoint) (h : dp ∈ rankTruncate nto (selectDatapoints lf df ppd)) :
    dp.score.toRat = (numDays dp.last dp.first : ℚ) * (dp.records.length : ℚ) * (1 / 2) := by
  have hmem := mem_rankTruncate nto _ dp h
  obtain ⟨kv, hkv, hq⟩ := List.mem_filterMap.mp hmem
  exact (qualify_some_inv lf df kv dp hq).2

/-! ### Ranking order facts -/

theorem scoreDescB_total (a b : Datapoint) :
    scoreDescB a b = true ∨ scoreDescB b a = true := by
  unfold scoreDescB
  rcases le_total b.score.toRat a.score.toRat with h | h
  · exact Or.inl (decide_eq_true h)
  · exact Or.inr (decide_eq_true h)

theorem scoreDescB_trans (a b c : Datapoint)
    (h1 : scoreDescB a b = true) (h2 : scoreDescB b c = true) :
    scoreDescB a c = true := by
  unfold scoreDescB at h1 h2 ⊢
  exact decide_eq_true (le_trans (of_decide_eq_true h2) (of_decide_eq_true h1))

theorem rankTruncate_sorted (nto : Option Int) (dps : List Datapoint) :
    List.Pairwise (fun a b => b.score.toRat ≤ a.score.toRat)
      (rankTruncate nto dps) := by
  have hs : List.Pairwise (fun a b => scoreDescB a b = true) (sortBy scoreDescB dps) :=
    pairwise_sortBy scoreDescB scoreDescB_total scoreDescB_trans dps
  have hs2 : List.Pairwise (fun a b : Datapoint => b.score.toRat ≤ a.score.toRat)
      (sortBy scoreDescB dps) :=
    hs.imp (fun h => of_decide_eq_true h)
  unfold rankTruncate
  cases nto with
  | none => exact hs2
  | some n => exact hs2.sublist (List.take_sublist _ _)

theorem i32AsUsize_of_nonneg (n : Int) (h0 : 0 ≤ n) (h1 : n < 2 ^ 64) :
    i32AsUsize n = n.toNat := by
  unfold i32AsUsize
  omega

/-! ### Claim C1 -/

/-- Claim C1: the Percentage-Change-Diff Calculator emits one entry per
sale with the first entry 0.0 and every subsequent entry computed from the
*consecutive* pair `(prev, curr)`.  Evaluation at the failing input — three
sales priced 100, 200, 400 against a constant reference index — shows the
code's third entry is 300 (every change is measured against the **first**
sale, because `previous_record` is reassigned `Some(prev_r)` and never
advances), whereas the claimed consecutive-pair formula (also evaluated
here, as `specComputePercentages`) yields 100 for that entry. -/
theorem c1_diff_measured_against_first_sale :
    (computePercentages c1refMap c1records).map (fun l => l.map fun p => (p.1, p.2.toRat))
      = Except.ok [(⟨2000, 1, 15⟩, 0), (⟨2005, 6, 10⟩, 100), (⟨2010, 9, 5⟩, 300)] ∧
    (specComputePercentages c1refMap c1records).map (fun l => l.map fun p => (p.1, p.2.toRat))
      = Except.ok [(⟨2000, 1, 15⟩, 0), (⟨2005, 6, 10⟩, 100), (⟨2010, 9, 5⟩, 100)] ∧
    (300 : ℚ) ≠ 100 := by
  refine ⟨?_, ?_, by norm_num⟩
  · rw [show computePercentages c1refMap c1records = Except.ok
      [(⟨2000, 1, 15⟩, ⟨0, 1⟩), (⟨2005, 6, 10⟩, ⟨10000000, 100000⟩),
       (⟨2010, 9, 5⟩, ⟨30000000, 100000⟩)] from by decide]
    show Except.ok _ = _
    norm_num [XRat.toRat]
  · rw [show specComputePercentages c1refMap c1records = Except.ok
      [(⟨2000, 1, 15⟩, ⟨0, 1⟩), (⟨2005, 6, 10⟩, ⟨10000000, 100000⟩),
       (⟨2010, 9, 5⟩, ⟨20000000, 200000⟩)] from by decide]
    show Except.ok _ = _
    norm_num [XRat.toRat]

/-! ### Claim C2 -/

/-- Claim C2 counterexample: with one selected series (sales 2000-01-15 and
2000-03-10, so `min_date` = 2000-01-15), the reference record keyed
`(1, 2000)` has `time` 2000-01-01, strictly before `min_date` and hence
outside `[min_date, max_date]` — yet changing only that record's
`average_price_flats` (500 in `c2refsA`, 250 in `c2refsB`) changes the
produced output: the diff computation indexes the *unfiltered* map. -/
theorem c2_counterexample_out_of_range_influences_diff :
    (entriesLoop (rankTruncate none (selectDatapoints noLenFilter noDistFilter c2ppd))).1
      = some ⟨2000, 1, 15⟩ ∧
    (entriesLoop (rankTruncate none (selectDatapoints noLenFilter noDistFilter c2ppd))).2.1
      = some ⟨2000, 3, 10⟩ ∧
    Date.leB ⟨2000, 1, 15⟩ ⟨2000, 1, 1⟩ = false ∧
    filterAndWrite noLenFilter noDistFilter none c2ppd c2refsA
      ≠ filterAndWrite noLenFilter noDistFilter none c2ppd c2refsB := by
  refine ⟨by decide, by decide, by decide, by decide⟩

/-- Claim C2 (amended): a `ReferenceRecord` whose `time` lies outside the
closed interval `[min_date, max_date]` is excluded from the regional columns
of the price output table — `records`, the source of both `add_entries_hdi`
columns, is exactly the in-range sub-sequence of the reference map.  (The
percentage-change diff computation, by contrast, indexes the unfiltered map,
which is what the counterexample exhibits.) -/
theorem c2_regional_columns_use_only_in_range_records (mn mx : Date)
    (m : List ((Int × Int) × UKHPIRecord)) :
    buildRangeRecords (some mn) (some mx) m =
      Except.ok ((m.map (fun kv => kv.2)).filter
        (fun u => Date.leB mn u.time && Date.leB u.time mx)) := by
  unfold buildRangeRecords
  rw [rangeFold_some]
  simp

/-! ### Claim C3 -/

/-- Claim C3 counterexample: the failure raised on a missing reference key
carries no identification of the affected property or date — two failing
runs on entirely different properties and dates produce the *same* error
value (the embedded `HashMap`-index panic), so the error identifies neither
a property nor a date, contrary to the claim's `MissingReferenceKeyError`
description. -/
theorem c3_counterexample_error_identifies_nothing :
    computePercentages [] c3records = Except.error RunError.keyNotFound ∧
    computePercentages [] c3recordsB = Except.error RunError.keyNotFound ∧
    c3records ≠ c3recordsB := by
  refine ⟨by decide, by decide, by decide⟩

/-- Claim C3 (amended): if any sale of a selected series (of at least two
sales — equivalently, any member of a consecutive pair) has a `(month,
year)` with no record in the region's index, the diff computation fails
outright — it never substitutes a zero and never skips the pair.  The
failure is the uncontrolled `HashMap`-index panic, which does not name the
property or date. -/
theorem c3_missing_reference_key_aborts (m : List ((Int × Int) × UKHPIRecord))
    (records : List PPDSRecord) (hlen : 2 ≤ records.length)
    (hmiss : ∃ r ∈ records, lookupRef m (r.date.month, r.date.year) = none) :
    computePercentages m records = Except.error RunError.keyNotFound :=
  computePercentages_err m records hlen hmiss

/-- Witness for C3: two sales whose months are absent from an empty index. -/
theorem c3_missing_reference_key_aborts_witness :
    computePercentages [] c1records = Except.error RunError.keyNotFound :=
  c3_missing_reference_key_aborts [] c1records (by decide)
    ⟨saleAt ⟨2000, 1, 15⟩ "flat1" "bldg" 100, by decide, rfl⟩

/-! ### Claim C4 -/

/-- Claim C4 counterexample: the two reference-map orders are permutations of
each other — the same `HashMap` contents under two iteration orders, which
Rust's randomized hasher can produce across two runs on identical inputs —
yet the produced tables differ (the regional rows of the price table are
appended in iteration order). -/
theorem c4_counterexample_iteration_order_changes_output :
    List.Perm [c4entry1, c4entry2] [c4entry2, c4entry1] ∧
    filterAndWrite noLenFilter noDistFilter none c4ppd [[c4entry1, c4entry2]]
      ≠ filterAndWrite noLenFilter noDistFilter none c4ppd [[c4entry2, c4entry1]] := by
  exact ⟨List.Perm.swap c4entry2 c4entry1 [], by decide⟩

/-- Claim C4 (amended): the pipeline is deterministic as a function of the
input records *together with* the hash-map iteration orders: two runs with
the same filters and limit and identical iteration sequences produce
identical tables.  Byte-identity across re-runs on identical inputs fails,
because the iteration order is not a function of the map contents (see the
counterexample, where a permutation of the same map changes the output). -/
theorem c4_deterministic_given_iteration_orders (lf : Nat → Bool)
    (df : Int → Bool) (nto : Option Int)
    (p1 p2 : List ((String × String) × List PPDSRecord))
    (r1 r2 : List (List ((Int × Int) × UKHPIRecord)))
    (hp : p1 = p2) (hr : r1 = r2) :
    filterAndWrite lf df nto p1 r1 = filterAndWrite lf df nto p2 r2 := by
  rw [hp, hr]

/-- Witness for C4: re-running on the same input and the same iteration
order reproduces the table pair. -/
theorem c4_deterministic_given_iteration_orders_witness :
    filterAndWrite noLenFilter noDistFilter none c4ppd [[c4entry1, c4entry2]]
      = filterAndWrite noLenFilter noDistFilter none c4ppd [[c4entry1, c4entry2]] :=
  c4_deterministic_given_iteration_orders noLenFilter noDistFilter none
    c4ppd c4ppd [[c4entry1, c4entry2]] [[c4entry1, c4entry2]] rfl rfl

theorem filter_insertBy_pos {α : Type} (le : α → α → Bool) (p : α → Bool)
    (x : α) (l : List α) (hx : p x = true)
    (hall : ∀ z, p z = true → le x z = true) :
    (insertBy le x l).filter p = x :: l.filter p := by
  induction l with
  | nil => simp [insertBy, hx]
  | cons y ys ih =>
    by_cases h : le x y = true
    · simp only [insertBy, h, if_true]
      simp [List.filter_cons, hx]
    · have hy : p y = false := by
        cases hpy : p y
        · rfl
        · exact absurd (hall y hpy) h
      simp only [insertBy, h, Bool.false_eq_true, if_false, List.filter_cons, hy]
      exact ih

theorem filter_insertBy_neg {α : Type} (le : α → α → Bool) (p : α → Bool)
    (x : α) (l : List α) (hx : p x = false) :
    (insertBy le x l).filter p = l.filter p := by
  induction l with
  | nil => simp [insertBy, hx]
  | cons y ys ih =>
    by_cases h : le x y = true
    · simp only [insertBy, h, if_true]
      simp [List.filter_cons, hx]
    · simp only [insertBy, h, Bool.false_eq_true, if_false, List.filter_cons]
      cases hpy : p y
      · simp [ih]
      · simp [ih]

/-- Stability of the embedded `sort_by`: for any class of mutually tied
elements (any `p` whose members all compare `le` to each other, e.g. an
equal-score class), sorting does not change the order of the class members:
their sublist equals their sublist in the input.  Ties are thus broken by
input order. -/
theorem sortBy_stable_filter {α : Type} (le : α → α → Bool) (p : α → Bool)
    (hall : ∀ x z, p x = true → p z = true → le x z = true) (l : List α) :
    (sortBy le l).filter p = l.filter p := by
  induction l with
  | nil => rfl
  | cons x xs ih =>
    show (insertBy le x (sortBy le xs)).filter p = (x :: xs).filter p
    cases hx : p x
    · rw [filter_insertBy_neg le p x _ hx, ih, List.filter_cons]
      simp [hx]
    · rw [filter_insertBy_pos le p x _ hx (fun z hz => hall x z hx hz), ih,
        List.filter_cons]
      simp [hx]

/-! ### Claim C5 -/

/-- Claim C5 counterexample: with `number_to_return = some (-1)` — "0 or
fewer" — the selection is *not* empty: `-1 as usize` wraps to `2^64 - 1`,
so `take` keeps every qualifying datapoint. -/
theorem c5_counterexample_negative_limit_keeps_all :
    rankTruncate (some (-1)) [c5dp] = [c5dp] ∧ ([c5dp] : List Datapoint) ≠ [] := by
  exact ⟨by decide, by decide⟩

/-- Claim C5 (amended): every selected datapoint carries score
`days_between(first, last) * sale_count * 0.5`; the selection is the
*stable* descending sort of the qualifying series truncated to the limit:
it is pairwise descending by score; `some n` with `0 ≤ n` keeps at most `n`
datapoints and these are the `n` *highest* — the kept and dropped
datapoints partition the qualifying series (up to permutation) and every
dropped score is ≤ every kept score; ties are broken by input order —
sorting leaves the sublist of any equal-score class exactly as it appeared
in the input; `some 0` keeps none (valid, not an error — the run still
returns these tables); `none` keeps exactly the qualifying series.  For
negative `n` the `n as usize` cast wraps and *all* qualifying series are
kept (counterexample above). -/
theorem c5_ranker_behaviour (lf : Nat → Bool) (df : Int → Bool)
    (ppd : List ((String × String) × List PPDSRecord)) (nto : Option Int) :
    (∀ dp ∈ rankTruncate nto (selectDatapoints lf df ppd),
      dp.score.toRat = (numDays dp.last dp.first : ℚ) * (dp.records.length : ℚ) * (1 / 2)) ∧
    List.Pairwise (fun a b => b.score.toRat ≤ a.score.toRat)
      (rankTruncate nto (selectDatapoints lf df ppd)) ∧
    (∀ n : Int, nto = some n → 0 ≤ n → n < 2 ^ 64 →
      (rankTruncate nto (selectDatapoints lf df ppd)).length ≤ n.toNat) ∧
    (nto = some 0 → rankTruncate nto (selectDatapoints lf df ppd) = []) ∧
    (nto = none →
      (rankTruncate nto (selectDatapoints lf df ppd)).Perm
        (selectDatapoints lf df ppd)) ∧
    (∀ n : Int, nto = some n →
      rankTruncate nto (selectDatapoints lf df ppd)
        = (sortBy scoreDescB (selectDatapoints lf df ppd)).take (i32AsUsize n)) ∧
    (∀ n : Int, nto = some n →
      (rankTruncate nto (selectDatapoints lf df ppd)
          ++ (sortBy scoreDescB (selectDatapoints lf df ppd)).drop (i32AsUsize n)).Perm
        (selectDatapoints lf df ppd) ∧
      ∀ a ∈ rankTruncate nto (selectDatapoints lf df ppd),
        ∀ b ∈ (sortBy scoreDescB (selectDatapoints lf df ppd)).drop (i32AsUsize n),
          b.score.toRat ≤ a.score.toRat) ∧
    (∀ s : ℚ,
      (sortBy scoreDescB (selectDatapoints lf df ppd)).filter
          (fun dp => decide (dp.score.toRat = s))
        = (selectDatapoints lf df ppd).filter
          (fun dp => decide (dp.score.toRat = s))) := by
  refine ⟨?_, rankTruncate_sorted nto _, ?_, ?_, ?_, ?_, ?_, ?_⟩
  · intro dp h
    exact selected_score_formula lf df nto ppd dp h
  · intro n hn h0 h1
    subst hn
    show ((sortBy scoreDescB (selectDatapoints lf df ppd)).take (i32AsUsize n)).length
      ≤ n.toNat
    calc ((sortBy scoreDescB (selectDatapoints lf df ppd)).take (i32AsUsize n)).length
        ≤ i32AsUsize n := by rw [List.length_take]; exact min_le_left _ _
      _ = n.toNat := i32AsUsize_of_nonneg n h0 h1
  · intro h
    subst h
    show (sortBy scoreDescB (selectDatapoints lf df ppd)).take (i32AsUsize 0) = []
    rw [show i32AsUsize 0 = 0 from by decide]
    exact List.take_zero _
  · intro h
    subst h
    exact sortBy_perm _ _
  · intro n hn
    subst hn
    rfl
  · intro n hn
    subst hn
    constructor
    · show ((sortBy scoreDescB (selectDatapoints lf df ppd)).take (i32AsUsize n)
          ++ (sortBy scoreDescB (selectDatapoints lf df ppd)).drop (i32AsUsize n)).Perm
        (selectDatapoints lf df ppd)
      rw [List.take_append_drop]
      exact sortBy_perm _ _
    · intro a ha b hb
      have ha2 : a ∈ (sortBy scoreDescB (selectDatapoints lf df ppd)).take (i32AsUsize n) := ha
      have hp : List.Pairwise (fun a b => scoreDescB a b = true)
          (sortBy scoreDescB (selectDatapoints lf df ppd)) :=
        pairwise_sortBy scoreDescB scoreDescB_total scoreDescB_trans _
      rw [← List.take_append_drop (i32AsUsize n)
        (sortBy scoreDescB (selectDatapoints lf df ppd))] at hp
      exact of_decide_eq_true ((List.pairwise_append.mp hp).2.2 a ha2 b hb)
  · intro s
    refine sortBy_stable_filter scoreDescB (fun dp => decide (dp.score.toRat = s)) ?_ _
    intro x z hx hz
    have hx2 := of_decide_eq_true hx
    have hz2 := of_decide_eq_true hz
    unfold scoreDescB
    exact decide_eq_true (by rw [hx2, hz2])

/-- Witness for C5: a concrete qualifying series; limit 0 keeps nothing,
limit 2 keeps at most two, limit 1 keeps the head of the stable descending
sort, and the equal-score-class sublist is preserved. -/
theorem c5_ranker_behaviour_witness :
    rankTruncate (some 0) (selectDatapoints noLenFilter noDistFilter c5ppd) = [] ∧
    (rankTruncate (some 2) (selectDatapoints noLenFilter noDistFilter c5ppd)).length ≤ 2 ∧
    rankTruncate (some 1) (selectDatapoints noLenFilter noDistFilter c5ppd)
      = (sortBy scoreDescB (selectDatapoints noLenFilter noDistFilter c5ppd)).take
          (i32AsUsize 1) ∧
    (sortBy scoreDescB (selectDatapoints noLenFilter noDistFilter c5ppd)).filter
        (fun dp => decide (dp.score.toRat = 0))
      = (selectDatapoints noLenFilter noDistFilter c5ppd).filter
        (fun dp => decide (dp.score.toRat = 0)) := by
  refine ⟨(c5_ranker_behaviour noLenFilter noDistFilter c5ppd (some 0)).2.2.2.1 rfl,
    (c5_ranker_behaviour noLenFilter noDistFilter c5ppd (some 2)).2.2.1 2 rfl
      (by decide) (by decide),
    (c5_ranker_behaviour noLenFilter noDistFilter c5ppd (some 1)).2.2.2.2.2.1 1 rfl,
    (c5_ranker_behaviour noLenFilter noDistFilter c5ppd none).2.2.2.2.2.2.2 0⟩

/-! ### Claim C6 -/

/-- Claim C6: the two injected predicates decide inclusion before scoring:
a series rejected by `length_filter` on its sale count or by
`date_distance_filter` on its first-to-last day span yields no `Datapoint`
(so it is never scored), never appears in the selection, and the entire run
output — both tables — is unchanged by deleting the series from the input,
so it contributes nothing to any output table. -/
theorem c6_rejected_series_contribute_nothing (lf : Nat → Bool)
    (df : Int → Bool) (nto : Option Int)
    (refs : List (List ((Int × Int) × UKHPIRecord)))
    (l1 l2 : List ((String × String) × List PPDSRecord))
    (k : String × String) (v : List PPDSRecord) (f l : PPDSRecord)
    (hf : (sortRecords v).head? = some f) (hl : (sortRecords v).getLast? = some l)
    (hrej : lf v.length = true ∨ df (numDays l.date f.date) = true) :
    qualify lf df (k, v) = none ∧
    selectDatapoints lf df (l1 ++ (k, v) :: l2) = selectDatapoints lf df (l1 ++ l2) ∧
    filterAndWrite lf df nto (l1 ++ (k, v) :: l2) refs
      = filterAndWrite lf df nto (l1 ++ l2) refs := by
  have hq := qualify_none_of_reject lf df k v f l hf hl hrej
  have hs := selectDatapoints_middle_none lf df l1 l2 (k, v) hq
  exact ⟨hq, hs, filterAndWrite_congr_sel lf df nto refs _ _ hs⟩

/-- Witness for C6: the spec's scenario — a two-sale series under
`length_filter = (count < 3)` is excluded and leaves the whole output
unchanged. -/
theorem c6_rejected_series_contribute_nothing_witness :
    qualify mainLenFilter mainDistFilter (("f", "b"), c6v) = none ∧
    selectDatapoints mainLenFilter mainDistFilter ([] ++ (("f", "b"), c6v) :: c6rest)
      = selectDatapoints mainLenFilter mainDistFilter ([] ++ c6rest) ∧
    filterAndWrite mainLenFilter mainDistFilter (some 10)
        ([] ++ (("f", "b"), c6v) :: c6rest) c6refs
      = filterAndWrite mainLenFilter mainDistFilter (some 10) ([] ++ c6rest) c6refs :=
  c6_rejected_series_contribute_nothing mainLenFilter mainDistFilter (some 10) c6refs
    [] c6rest ("f", "b") c6v
    (saleAt ⟨2000, 1, 1⟩ "f" "b" 100) (saleAt ⟨2005, 1, 1⟩ "f" "b" 150)
    (by decide) (by decide) (Or.inl (by decide))

/-! ### Claim C7 -/

theorem rect_add_row (o : OutputCSV) (row : List String)
    (h : row.length = o.labels.length) (ho : Rectangular o) :
    Rectangular (o.add_row row) := by
  intro r hr
  simp only [OutputCSV.add_row, List.mem_append, List.mem_singleton] at hr
  rcases hr with hr | rfl
  · exact ho r hr
  · exact h

theorem rect_writeAllSaleMapTable
    (barb gle : List ((String × String) × List PPDSRecord))
    (col lon eng : List ((Int × Int) × UKHPIRecord)) :
    Rectangular (writeAllSaleMapTable barb gle col lon eng) := by
  have hP : ∀ (o : OutputCSV) (row : List String),
      (Rectangular o ∧ o.labels.length = 6) → row.length = 6 →
      Rectangular (o.add_row row) ∧ (o.add_row row).labels.length = 6 := by
    intro o row h hrow
    exact ⟨rect_add_row o row (by rw [hrow, h.2]) h.1,
      by simpa [OutputCSV.add_row] using h.2⟩
  have hbase : Rectangular (OutputCSV.new.set_labels
      ["date", "barbican", "golden_lane", "city_of_london_flats",
       "london_flats", "england_flats"]) ∧
      (OutputCSV.new.set_labels
      ["date", "barbican", "golden_lane", "city_of_london_flats",
       "london_flats", "england_flats"]).labels.length = 6 := by
    constructor
    · intro r hr
      simp [OutputCSV.new, OutputCSV.set_labels] at hr
    · rfl
  unfold writeAllSaleMapTable
  refine (foldl_preserves _ _ (fun s v hs => hP s _ hs (by rfl)) _ _
    (foldl_preserves _ _ (fun s v hs => hP s _ hs (by rfl)) _ _
      (foldl_preserves _ _ (fun s v hs => hP s _ hs (by rfl)) _ _
        (foldl_preserves _ _
          (fun s kv hs => foldl_preserves _ _ (fun s2 u hs2 => hP s2 _ hs2 (by rfl)) kv.2 s hs) _ _
          (foldl_preserves _ _
            (fun s kv hs => foldl_preserves _ _ (fun s2 u hs2 => hP s2 _ hs2 (by rfl)) kv.2 s hs) _ _
            hbase))))).1

/-- Claim C7 counterexample: `add_row` appends its argument verbatim, so the
operation sequence `new(); add_row([])` yields a table whose single row has
0 cells while `labels.length = 1` — the claim's "every sequence of
PivotTable operations" quantification fails. -/
theorem c7_counterexample_add_row_breaks_rectangularity :
    ¬ Rectangular (OutputCSV.new.add_row []) := by
  intro h
  have h0 := h [] (by simp [OutputCSV.new, OutputCSV.add_row])
  simp [OutputCSV.new, OutputCSV.add_row] at h0

/-- Claim C7 (amended): the three column-population operations
(`add_entries`, `add_percentage_change`, `add_entries_hdi`) preserve
rectangularity — each pushes one label, pads every existing row with one
empty cell, and appends rows of exactly one cell per label — and every table
the program produces (both `filter_and_write` outputs, and the
`write_all_sale_map` table, whose `set_labels`/`add_row` uses happen to have
matching widths) is rectangular.  `add_row` and `set_labels` themselves
check nothing, so arbitrary operation sequences can break the invariant
(see the counterexample). -/
theorem c7_program_tables_rectangular :
    (∀ (o : OutputCSV) (f b : String) (ppds : List PPDSRecord),
      Rectangular o → Rectangular (o.add_entries f b ppds)) ∧
    (∀ (o : OutputCSV) (f b : String) (ps : List (Date × XRat)),
      Rectangular o → Rectangular (o.add_percentage_change f b ps)) ∧
    (∀ (o : OutputCSV) (f b : String) (rs : List UKHPIRecord)
      (ptu : UKHPIRecord → Int),
      Rectangular o → Rectangular (o.add_entries_hdi f b rs ptu)) ∧
    (∀ (lf : Nat → Bool) (df : Int → Bool) (nto : Option Int)
      (ppd : List ((String × String) × List PPDSRecord))
      (refs : List (List ((Int × Int) × UKHPIRecord))) (t1 t2 : OutputCSV),
      filterAndWrite lf df nto ppd refs = Except.ok (t1, t2) →
      Rectangular t1 ∧ Rectangular t2) ∧
    (∀ (barb gle : List ((String × String) × List PPDSRecord))
      (col lon eng : List ((Int × Int) × UKHPIRecord)),
      Rectangular (writeAllSaleMapTable barb gle col lon eng)) :=
  ⟨rect_add_entries, rect_add_percentage_change, rect_add_entries_hdi,
   fun lf df nto ppd refs t1 t2 h => rect_filterAndWrite lf df nto ppd refs t1 t2 h,
   rect_writeAllSaleMapTable⟩

/-- Witness for C7: a concrete successful run's two tables are rectangular,
and so is a concrete `add_entries` application. -/
theorem c7_program_tables_rectangular_witness :
    (∃ t1 t2, filterAndWrite noLenFilter noDistFilter none c7ppd c7refs
        = Except.ok (t1, t2) ∧ Rectangular t1 ∧ Rectangular t2) ∧
    Rectangular (OutputCSV.new.add_entries "f" "b"
      [saleAt ⟨2000, 1, 1⟩ "f" "b" 100]) := by
  constructor
  · cases hrun : filterAndWrite noLenFilter noDistFilter none c7ppd c7refs with
    | ok p =>
      refine ⟨p.1, p.2, congrArg Except.ok Prod.mk.eta.symm, ?_⟩
      exact c7_program_tables_rectangular.2.2.2.1 noLenFilter noDistFilter none
        c7ppd c7refs p.1 p.2 (hrun.trans (congrArg Except.ok Prod.mk.eta.symm))
    | error e =>
      cases e
      · exact absurd hrun (by decide)
      · exact absurd hrun (by decide)
  · exact c7_program_tables_rectangular.1 OutputCSV.new "f" "b" _ rect_new

/-! ### Claim C8 -/

/-- Claim C8 counterexample: a consecutive pair whose previous sale price is
zero does not fail — the computation emits an entry for the pair (the
source performs the `f32` division unchecked; the exact-fraction stand-in
records the zero denominator, where `f32` would carry `inf`). -/
theorem c8_counterexample_zero_division_emits_entry :
    (saleAt ⟨2000, 1, 15⟩ "flat1" "bldg1" 0).price_paid = 0 ∧
    computePercentages c8map c8records
      = Except.ok [(⟨2000, 1, 15⟩, XRat.zero), (⟨2000, 3, 10⟩, ⟨15000000, 0⟩)] := by
  exact ⟨rfl, by decide⟩

/-- Claim C8 (amended): the diff computation contains no division-by-zero
check: whenever every sale month resolves in the reference index it
*succeeds*, emitting exactly one entry per sale, regardless of zero previous
prices or zero previous reference averages — no `DivisionByZeroError` (nor
any other failure) exists for such pairs. -/
theorem c8_no_division_by_zero_check (m : List ((Int × Int) × UKHPIRecord))
    (records : List PPDSRecord)
    (hall : ∀ r ∈ records, (lookupRef m (r.date.month, r.date.year)).isSome = true) :
    ∃ l, computePercentages m records = Except.ok l ∧ l.length = records.length :=
  computePercentages_ok m records hall

/-- Witness for C8: the zero-previous-price series still yields one entry
per sale. -/
theorem c8_no_division_by_zero_check_witness :
    ∃ l, computePercentages c8map c8records = Except.ok l
      ∧ l.length = c8records.length :=
  c8_no_division_by_zero_check c8map c8records (by decide)

/-! ### Claim C9 -/

/-- Claim C9 counterexample: a run with an empty selection (the spec's
two-sale series under `count < 3`) fails not with a descriptive
`EmptySelectionError` but with the anonymous `Option::unwrap` panic on the
unset min date — the very same error value that any other unwrap failure
produces, carrying no description of the empty selection. -/
theorem c9_counterexample_error_is_anonymous_unwrap_panic :
    filterAndWrite mainLenFilter mainDistFilter (some 10) c9ppd c9refs
      = Except.error RunError.unwrapNone ∧
    unwrapO (none : Option Date) = Except.error RunError.unwrapNone := by
  exact ⟨by decide, rfl⟩

/-- Claim C9 (amended): with an empty selection and a nonempty reference
map, the downstream reference loop — which needs the global min/max dates —
fails outright: the run aborts through the embedded `Option::unwrap` panic.
It never assumes a default date, but the failure is an uncontrolled
anonymous panic, not a descriptive `EmptySelectionError`. -/
theorem c9_empty_selection_panics (lf : Nat → Bool) (df : Int → Bool)
    (nto : Option Int) (ppd : List ((String × String) × List PPDSRecord))
    (kv : (Int × Int) × UKHPIRecord) (m : List ((Int × Int) × UKHPIRecord))
    (rest refs : List (List ((Int × Int) × UKHPIRecord)))
    (hsel : selectDatapoints lf df ppd = [])
    (hrefs : refs = (kv :: m) :: rest) :
    filterAndWrite lf df nto ppd refs = Except.error RunError.unwrapNone :=
  filterAndWrite_emptySel lf df nto ppd kv m rest refs hsel hrefs

/-- Witness for C9: an empty sale map with one nonempty reference map. -/
theorem c9_empty_selection_panics_witness :
    filterAndWrite mainLenFilter mainDistFilter (some 10) [] c9refs
      = Except.error RunError.unwrapNone :=
  c9_empty_selection_panics mainLenFilter mainDistFilter (some 10) []
    (refEntry 1 2000 ⟨2000, 1, 1⟩ "R" 900 1000) [] [] c9refs rfl rfl

/-! ### Claim C10 -/

/-- Claim C10: every date cell written by `add_entries` and
`add_percentage_change` is rendered through `formatYM01` (the `%Y-%m-01`
formatting, day of month replaced by `01`); `formatYM01` depends only on
the year and month, so two sales on different days of the same month
produce identical date cells, and entry lists equal up to day of month
produce identical tables — the day is never observable. -/
theorem c10_day_of_month_never_observable :
    (∀ (f b : String) (p : PPDSRecord),
      (OutputCSV.new.add_entries f b [p]).rows
        = [[formatYM01 p.date, toString p.price_paid]]) ∧
    (∀ (f b : String) (q : Date × XRat),
      (OutputCSV.new.add_percentage_change f b [q]).rows
        = [[formatYM01 q.1, renderX q.2]]) ∧
    (∀ d e : Date, d.year = e.year → d.month = e.month →
      formatYM01 d = formatYM01 e) ∧
    (∀ (o : OutputCSV) (f b : String) (ppds ppds' : List PPDSRecord),
      List.Forall₂ (fun p q => p.date.year = q.date.year
        ∧ p.date.month = q.date.month ∧ p.price_paid = q.price_paid) ppds ppds' →
      o.add_entries f b ppds = o.add_entries f b ppds') ∧
    (∀ (o : OutputCSV) (f b : String) (ps ps' : List (Date × XRat)),
      List.Forall₂ (fun p q => p.1.year = q.1.year ∧ p.1.month = q.1.month
        ∧ p.2 = q.2) ps ps' →
      o.add_percentage_change f b ps = o.add_percentage_change f b ps') := by
  have hym : ∀ d e : Date, d.year = e.year → d.month = e.month →
      formatYM01 d = formatYM01 e := by
    intro d e hy hm
    unfold formatYM01
    rw [hy, hm]
  refine ⟨?_, ?_, hym, ?_, ?_⟩
  · intro f b p
    simp [OutputCSV.new, OutputCSV.add_entries, datedRow, List.replicate]
  · intro f b q
    simp [OutputCSV.new, OutputCSV.add_percentage_change, datedRow, List.replicate]
  · intro o f b ppds ppds' hfa
    have hmap : ∀ n : Nat,
        ppds.map (fun p => datedRow n (formatYM01 p.date) (toString p.price_paid))
          = ppds'.map (fun p => datedRow n (formatYM01 p.date) (toString p.price_paid)) := by
      intro n
      induction hfa with
      | nil => rfl
      | @cons p q ps qs hpq hrest ih =>
        simp only [List.map_cons, ih]
        rw [hym p.date q.date hpq.1 hpq.2.1, hpq.2.2]
    simp only [OutputCSV.add_entries]
    rw [hmap]
  · intro o f b ps ps' hfa
    have hmap : ∀ n : Nat,
        ps.map (fun p => datedRow n (formatYM01 p.1) (renderX p.2))
          = ps'.map (fun p => datedRow n (formatYM01 p.1) (renderX p.2)) := by
      intro n
      induction hfa with
      | nil => rfl
      | @cons p q pps qqs hpq hrest ih =>
        simp only [List.map_cons, ih]
        rw [hym p.1 q.1 hpq.1 hpq.2.1, hpq.2.2]
    simp only [OutputCSV.add_percentage_change]
    rw [hmap]

/-- Witness for C10: two sales on day 5 and day 28 of the same month
produce the same table and the same date cell. -/
theorem c10_day_of_month_never_observable_witness :
    OutputCSV.new.add_entries "f" "b" [c10saleA]
      = OutputCSV.new.add_entries "f" "b" [c10saleB] ∧
    formatYM01 ⟨2000, 1, 5⟩ = formatYM01 ⟨2000, 1, 28⟩ := by
  constructor
  · exact c10_day_of_month_never_observable.2.2.2.1 OutputCSV.new "f" "b"
      [c10saleA] [c10saleB]
      (List.Forall₂.cons ⟨rfl, rfl, rfl⟩ List.Forall₂.nil)
  · exact c10_day_of_month_never_observable.2.2.1 ⟨2000, 1, 5⟩ ⟨2000, 1, 28⟩ rfl rfl
